import Mathlib

/-!
# Register-pinning C wrappers around the assembly loops (`part3/assembly_wrappers.c`)

The file declares four externally linked routines and defines one forwarding
wrapper for each.  Every wrapper binds its parameters to local register
variables (`register T v asm("xN") = e;`) and then performs an ordinary C call
of the routine with those variables as operands.

The embedding has two layers that are both visible in the machine state:

* the C level: which routine is called, with which argument values, and what
  happens to memory (the routines themselves are not part of the C file, so
  their behaviour is a parameter);
* the register level: the general-purpose register file, written by the local
  register bindings and by the argument marshalling of a call.  An ordinary call
  follows the procedure call standard of the ARM64 platform: the i-th integer or
  pointer argument travels in register `x i` (for the first eight arguments).
-/

namespace AsmWrappers

/-- Number of values of a 64-bit register, of `uint64_t` and of a pointer. -/
def WORD : Nat := 2 ^ 64

/-- General-purpose registers `x0` .. `x30`. -/
abbrev Reg := Fin 31

/-- Contents of the general-purpose registers. -/
abbrev RegFile := Reg → Nat

/-- The four routines declared at the top of the file (lines 6-9); their bodies
live in assembly and are not part of the C source. -/
inductive AsmRoutine where
  | ASM_MOVAllBytesASM
  | ASM_NOPAllBytesASM
  | ASM_CMPAllBytesASM
  | ASM_DECAllBytesASM
  deriving DecidableEq, Repr

/-- One transfer of control to a routine: the routine, the argument values of
the C call in order, and the register file at the moment of the transfer. -/
structure CallRecord where
  callee : AsmRoutine
  args : List Nat
  entryRegs : RegFile

/-- C-level view of a transfer: which routine, which arguments. -/
def CallRecord.sig (c : CallRecord) : AsmRoutine × List Nat := (c.callee, c.args)

/-- Machine state threaded through a wrapper: registers, memory (of any shape)
and the transfers to assembly routines made so far, oldest first. -/
structure Machine (Mem : Type) where
  regs : RegFile
  mem : Mem
  calls : List CallRecord

/-- Behaviour of the assembly routines, a parameter of the development: given
the argument values of its C prototype and the memory, a routine either hands
control back with a new memory (`some`) or never does (`none`).  The prototypes
are `void`, so there is no returned value. -/
abbrev Routines (Mem : Type) := AsmRoutine → List Nat → Mem → Option Mem

/-- What running a piece of code gives: it returned a value of type `α` in some
machine state, or control never came back from a routine (the state is then the
one at the transfer). -/
inductive Outcome (Mem : Type) (α : Type) where
  | returned (val : α) (m : Machine Mem)
  | noReturn (m : Machine Mem)

/-- Machine state carried by an outcome. -/
def Outcome.machine {Mem α : Type} : Outcome Mem α → Machine Mem
  | .returned _ m => m
  | .noReturn m => m

/-- Memory seen by the caller once the code has returned. -/
def Outcome.memAfter {Mem α : Type} : Outcome Mem α → Option Mem
  | .returned _ m => some m.mem
  | .noReturn _ => none

/-- The declaration `register T v asm("xN") = e;`: the variable lives in register
`xN`, which receives the 64-bit value of `e`. -/
def bindReg {Mem : Type} (r : Reg) (v : Nat) (m : Machine Mem) : Machine Mem :=
  { m with regs := fun q => if q = r then v % WORD else m.regs q }

/-- Reading a local register variable bound to register `r`. -/
def readReg {Mem : Type} (r : Reg) (m : Machine Mem) : Nat := m.regs r

/-- Argument marshalling of an ordinary call under the platform's procedure
call standard: all operands are evaluated first, then the i-th one is placed in
register `x i` for `i < 8`; the other registers keep their contents. -/
def placeArgs (args : List Nat) (rf : RegFile) : RegFile :=
  fun q => if q.val < 8 then (args[q.val]?).getD (rf q) else rf q

/-- The ordinary C call `f(args...)` of an assembly routine: marshal the
arguments, record the transfer, then let the routine run on the memory. -/
def callRoutine {Mem : Type} (env : Routines Mem) (f : AsmRoutine) (args : List Nat)
    (m : Machine Mem) : Outcome Mem Unit :=
  let atEntry : Machine Mem :=
    { m with regs := placeArgs args m.regs
             calls := m.calls ++ [⟨f, args, placeArgs args m.regs⟩] }
  match env f args m.mem with
  | some mem1 => .returned () { atEntry with mem := mem1 }
  | none => .noReturn atEntry

/-- Lines 14-18:
`register uint8_t* x1 asm("x1") = buffer; register uint64_t x2 asm("x2") = count;`
`ASM_MOVAllBytesASM(x1, x2);` -/
def MOVAllBytesASM_CWrapper {Mem : Type} (env : Routines Mem) (buffer count : Nat)
    (m : Machine Mem) : Outcome Mem Unit :=
  let m1 := bindReg 1 buffer m
  let m2 := bindReg 2 count m1
  callRoutine env .ASM_MOVAllBytesASM [readReg 1 m2, readReg 2 m2] m2

/-- Lines 21-26: `register uint64_t x0 asm("x0") = count; ASM_NOPAllBytesASM(x0);` -/
def NOPAllBytesASM_CWrapper {Mem : Type} (env : Routines Mem) (count : Nat)
    (m : Machine Mem) : Outcome Mem Unit :=
  let m1 := bindReg 0 count m
  callRoutine env .ASM_NOPAllBytesASM [readReg 0 m1] m1

/-- Lines 29-32: `register uint64_t x0 asm("x0") = count; ASM_CMPAllBytesASM(x0);` -/
def CMPAllBytesASM_CWrapper {Mem : Type} (env : Routines Mem) (count : Nat)
    (m : Machine Mem) : Outcome Mem Unit :=
  let m1 := bindReg 0 count m
  callRoutine env .ASM_CMPAllBytesASM [readReg 0 m1] m1

/-- Lines 35-38: `register uint64_t x0 asm("x0") = count; ASM_DECAllBytesASM(x0);` -/
def DECAllBytesASM_CWrapper {Mem : Type} (env : Routines Mem) (count : Nat)
    (m : Machine Mem) : Outcome Mem Unit :=
  let m1 := bindReg 0 count m
  callRoutine env .ASM_DECAllBytesASM [readReg 0 m1] m1

/-! ## Fixtures used to evaluate the wrappers on concrete inputs -/

/-- A start state: all registers zero, an empty memory log, no transfer yet. -/
def bootMachine : Machine (List Nat) := ⟨fun _ => 0, [], []⟩

/-- Sample routines over a memory log: the copy routine logs its two arguments,
the three counting loops leave memory alone; all of them return. -/
def sampleRoutines : Routines (List Nat) := fun f args mem =>
  match f with
  | .ASM_MOVAllBytesASM => some (mem ++ args)
  | _ => some mem

/-- Sample routines that never touch memory and always return. -/
def idleRoutines : Routines (List Nat) := fun _ _ mem => some mem

/-! ## Shared lemmas -/

theorem machine_callRoutine {Mem : Type} (env : Routines Mem) (f : AsmRoutine)
    (args : List Nat) (m : Machine Mem) :
    (callRoutine env f args m).machine.calls
      = m.calls ++ [⟨f, args, placeArgs args m.regs⟩] := by
  unfold callRoutine
  cases env f args m.mem <;> rfl

theorem memAfter_callRoutine {Mem : Type} (env : Routines Mem) (f : AsmRoutine)
    (args : List Nat) (m : Machine Mem) :
    (callRoutine env f args m).memAfter = env f args m.mem := by
  unfold callRoutine
  cases env f args m.mem <;> rfl

theorem returned_callRoutine {Mem : Type} (env : Routines Mem) (f : AsmRoutine)
    (args : List Nat) (m : Machine Mem) (h : (env f args m.mem).isSome) :
    ∃ m1, callRoutine env f args m = .returned () m1 := by
  unfold callRoutine
  cases hr : env f args m.mem with
  | none => simp [hr] at h
  | some mem1 => exact ⟨_, rfl⟩

theorem mov_args {Mem : Type} (buffer count : Nat) (m : Machine Mem)
    (hb : buffer < WORD) (hc : count < WORD) :
    [readReg 1 (bindReg 2 count (bindReg 1 buffer m)),
      readReg 2 (bindReg 2 count (bindReg 1 buffer m))] = [buffer, count] := by
  simp [readReg, bindReg, Nat.mod_eq_of_lt hb, Nat.mod_eq_of_lt hc]

theorem count_arg {Mem : Type} (count : Nat) (m : Machine Mem) (hc : count < WORD) :
    [readReg 0 (bindReg 0 count m)] = [count] := by
  simp [readReg, bindReg, Nat.mod_eq_of_lt hc]

/-! ## Which routine is called, and with what -/

/-- C1: for every buffer pointer and 64-bit count, `MOVAllBytesASM_CWrapper`
adds exactly one transfer to the transfers made before it, that transfer is to
`ASM_MOVAllBytesASM`, and its arguments are `buffer` then `count`, unchanged and
in that order; this holds whether or not the routine hands control back. -/
theorem MOV_wrapper_calls_routine_once {Mem : Type} (env : Routines Mem)
    (buffer count : Nat) (m : Machine Mem) (hb : buffer < WORD) (hc : count < WORD) :
    ∃ c : CallRecord,
      (MOVAllBytesASM_CWrapper env buffer count m).machine.calls = m.calls ++ [c] ∧
      c.sig = (AsmRoutine.ASM_MOVAllBytesASM, [buffer, count]) := by
  unfold MOVAllBytesASM_CWrapper
  rw [machine_callRoutine, mov_args buffer count m hb hc]
  exact ⟨_, rfl, rfl⟩

theorem MOV_wrapper_calls_routine_once_witness :
    (4096 < WORD ∧ 2 ^ 64 - 1 < WORD) ∧
    ∃ c : CallRecord,
      (MOVAllBytesASM_CWrapper sampleRoutines 4096 (2 ^ 64 - 1) bootMachine).machine.calls
        = bootMachine.calls ++ [c] ∧
      c.sig = (AsmRoutine.ASM_MOVAllBytesASM, [4096, 2 ^ 64 - 1]) :=
  ⟨by decide,
    MOV_wrapper_calls_routine_once sampleRoutines 4096 (2 ^ 64 - 1) bootMachine
      (by decide) (by decide)⟩

/-- C2: for every 64-bit count, each count-only wrapper adds exactly one
transfer, to its own routine and with the single argument `count`:
NOP to `ASM_NOPAllBytesASM`, CMP to `ASM_CMPAllBytesASM`, DEC to
`ASM_DECAllBytesASM`. -/
theorem count_wrappers_call_own_routine_once {Mem : Type} (env : Routines Mem)
    (count : Nat) (m : Machine Mem) (hc : count < WORD) :
    (∃ c : CallRecord,
      (NOPAllBytesASM_CWrapper env count m).machine.calls = m.calls ++ [c] ∧
      c.sig = (AsmRoutine.ASM_NOPAllBytesASM, [count])) ∧
    (∃ c : CallRecord,
      (CMPAllBytesASM_CWrapper env count m).machine.calls = m.calls ++ [c] ∧
      c.sig = (AsmRoutine.ASM_CMPAllBytesASM, [count])) ∧
    (∃ c : CallRecord,
      (DECAllBytesASM_CWrapper env count m).machine.calls = m.calls ++ [c] ∧
      c.sig = (AsmRoutine.ASM_DECAllBytesASM, [count])) := by
  refine ⟨?_, ?_, ?_⟩
  · unfold NOPAllBytesASM_CWrapper
    rw [machine_callRoutine, count_arg count m hc]
    exact ⟨_, rfl, rfl⟩
  · unfold CMPAllBytesASM_CWrapper
    rw [machine_callRoutine, count_arg count m hc]
    exact ⟨_, rfl, rfl⟩
  · unfold DECAllBytesASM_CWrapper
    rw [machine_callRoutine, count_arg count m hc]
    exact ⟨_, rfl, rfl⟩

theorem count_wrappers_call_own_routine_once_witness :
    2 ^ 64 - 1 < WORD ∧
    (∃ c : CallRecord,
      (NOPAllBytesASM_CWrapper sampleRoutines (2 ^ 64 - 1) bootMachine).machine.calls
        = bootMachine.calls ++ [c] ∧
      c.sig = (AsmRoutine.ASM_NOPAllBytesASM, [2 ^ 64 - 1])) ∧
    (∃ c : CallRecord,
      (CMPAllBytesASM_CWrapper sampleRoutines (2 ^ 64 - 1) bootMachine).machine.calls
        = bootMachine.calls ++ [c] ∧
      c.sig = (AsmRoutine.ASM_CMPAllBytesASM, [2 ^ 64 - 1])) ∧
    (∃ c : CallRecord,
      (DECAllBytesASM_CWrapper sampleRoutines (2 ^ 64 - 1) bootMachine).machine.calls
        = bootMachine.calls ++ [c] ∧
      c.sig = (AsmRoutine.ASM_DECAllBytesASM, [2 ^ 64 - 1])) :=
  ⟨by decide,
    count_wrappers_call_own_routine_once sampleRoutines (2 ^ 64 - 1) bootMachine (by decide)⟩

/-! ## Which registers carry the arguments at the transfer -/

/-- C3 (evaluation at buffer = 4096, count = 5): at the single transfer made by
`MOVAllBytesASM_CWrapper`, register x1 holds the count 5 and not the buffer
4096, while x0, the standard first-argument register, holds the buffer; x2
still holds the count from its local binding. -/
theorem MOV_transfer_x1_holds_count_at_4096_5 :
    ∃ c : CallRecord,
      (MOVAllBytesASM_CWrapper sampleRoutines 4096 5 bootMachine).machine.calls = [c] ∧
      c.callee = AsmRoutine.ASM_MOVAllBytesASM ∧
      c.entryRegs 0 = 4096 ∧ c.entryRegs 1 = 5 ∧ c.entryRegs 1 ≠ 4096 ∧
      c.entryRegs 2 = 5 :=
  ⟨_, rfl, rfl, rfl, rfl, by decide, rfl⟩

/-- C4: for every 64-bit count, at the single transfer each of the NOP, CMP and
DEC wrappers makes to its routine, register x0 holds `count`. -/
theorem count_wrappers_transfer_with_x0_count {Mem : Type} (env : Routines Mem)
    (count : Nat) (m : Machine Mem) (hc : count < WORD) :
    (∃ c : CallRecord,
      (NOPAllBytesASM_CWrapper env count m).machine.calls = m.calls ++ [c] ∧
      c.callee = AsmRoutine.ASM_NOPAllBytesASM ∧ c.entryRegs 0 = count) ∧
    (∃ c : CallRecord,
      (CMPAllBytesASM_CWrapper env count m).machine.calls = m.calls ++ [c] ∧
      c.callee = AsmRoutine.ASM_CMPAllBytesASM ∧ c.entryRegs 0 = count) ∧
    (∃ c : CallRecord,
      (DECAllBytesASM_CWrapper env count m).machine.calls = m.calls ++ [c] ∧
      c.callee = AsmRoutine.ASM_DECAllBytesASM ∧ c.entryRegs 0 = count) := by
  refine ⟨?_, ?_, ?_⟩
  · unfold NOPAllBytesASM_CWrapper
    rw [machine_callRoutine, count_arg count m hc]
    exact ⟨_, rfl, rfl, rfl⟩
  · unfold CMPAllBytesASM_CWrapper
    rw [machine_callRoutine, count_arg count m hc]
    exact ⟨_, rfl, rfl, rfl⟩
  · unfold DECAllBytesASM_CWrapper
    rw [machine_callRoutine, count_arg count m hc]
    exact ⟨_, rfl, rfl, rfl⟩

theorem count_wrappers_transfer_with_x0_count_witness :
    7 < WORD ∧
    (∃ c : CallRecord,
      (NOPAllBytesASM_CWrapper idleRoutines 7 bootMachine).machine.calls
        = bootMachine.calls ++ [c] ∧
      c.callee = AsmRoutine.ASM_NOPAllBytesASM ∧ c.entryRegs 0 = 7) ∧
    (∃ c : CallRecord,
      (CMPAllBytesASM_CWrapper idleRoutines 7 bootMachine).machine.calls
        = bootMachine.calls ++ [c] ∧
      c.callee = AsmRoutine.ASM_CMPAllBytesASM ∧ c.entryRegs 0 = 7) ∧
    (∃ c : CallRecord,
      (DECAllBytesASM_CWrapper idleRoutines 7 bootMachine).machine.calls
        = bootMachine.calls ++ [c] ∧
      c.callee = AsmRoutine.ASM_DECAllBytesASM ∧ c.entryRegs 0 = 7) :=
  ⟨by decide,
    count_wrappers_transfer_with_x0_count idleRoutines 7 bootMachine (by decide)⟩

/-- C7: the call in `MOVAllBytesASM_CWrapper` is an ordinary call, so at the
transfer to `ASM_MOVAllBytesASM` register x0 holds `buffer` and register x1
holds `count`, for every buffer and count; these are the same two registers,
with the same contents, as for the plain call `ASM_MOVAllBytesASM(buffer, count)`
made without any local register binding. -/
theorem MOV_routine_receives_buffer_x0_count_x1 {Mem : Type} (env : Routines Mem)
    (buffer count : Nat) (m : Machine Mem) (hb : buffer < WORD) (hc : count < WORD) :
    ∃ c d : CallRecord,
      (MOVAllBytesASM_CWrapper env buffer count m).machine.calls = m.calls ++ [c] ∧
      c.callee = AsmRoutine.ASM_MOVAllBytesASM ∧
      c.entryRegs 0 = buffer ∧ c.entryRegs 1 = count ∧
      (callRoutine env AsmRoutine.ASM_MOVAllBytesASM [buffer, count] m).machine.calls
        = m.calls ++ [d] ∧
      d.entryRegs 0 = c.entryRegs 0 ∧ d.entryRegs 1 = c.entryRegs 1 := by
  unfold MOVAllBytesASM_CWrapper
  rw [machine_callRoutine, machine_callRoutine, mov_args buffer count m hb hc]
  exact ⟨_, _, rfl, rfl, rfl, rfl, rfl, rfl, rfl⟩

theorem MOV_routine_receives_buffer_x0_count_x1_witness :
    (4096 < WORD ∧ 5 < WORD) ∧
    ∃ c d : CallRecord,
      (MOVAllBytesASM_CWrapper sampleRoutines 4096 5 bootMachine).machine.calls
        = bootMachine.calls ++ [c] ∧
      c.callee = AsmRoutine.ASM_MOVAllBytesASM ∧
      c.entryRegs 0 = 4096 ∧ c.entryRegs 1 = 5 ∧
      (callRoutine sampleRoutines AsmRoutine.ASM_MOVAllBytesASM [4096, 5]
        bootMachine).machine.calls = bootMachine.calls ++ [d] ∧
      d.entryRegs 0 = c.entryRegs 0 ∧ d.entryRegs 1 = c.entryRegs 1 :=
  ⟨by decide,
    MOV_routine_receives_buffer_x0_count_x1 sampleRoutines 4096 5 bootMachine
      (by decide) (by decide)⟩

/-! ## Memory effect and return -/

theorem memAfter_MOV {Mem : Type} (env : Routines Mem) (buffer count : Nat)
    (m : Machine Mem) (hb : buffer < WORD) (hc : count < WORD) :
    (MOVAllBytesASM_CWrapper env buffer count m).memAfter
      = env .ASM_MOVAllBytesASM [buffer, count] m.mem := by
  unfold MOVAllBytesASM_CWrapper
  rw [memAfter_callRoutine, mov_args buffer count m hb hc]
  rfl

theorem memAfter_NOP {Mem : Type} (env : Routines Mem) (count : Nat)
    (m : Machine Mem) (hc : count < WORD) :
    (NOPAllBytesASM_CWrapper env count m).memAfter
      = env .ASM_NOPAllBytesASM [count] m.mem := by
  unfold NOPAllBytesASM_CWrapper
  rw [memAfter_callRoutine, count_arg count m hc]
  rfl

theorem memAfter_CMP {Mem : Type} (env : Routines Mem) (count : Nat)
    (m : Machine Mem) (hc : count < WORD) :
    (CMPAllBytesASM_CWrapper env count m).memAfter
      = env .ASM_CMPAllBytesASM [count] m.mem := by
  unfold CMPAllBytesASM_CWrapper
  rw [memAfter_callRoutine, count_arg count m hc]
  rfl

theorem memAfter_DEC {Mem : Type} (env : Routines Mem) (count : Nat)
    (m : Machine Mem) (hc : count < WORD) :
    (DECAllBytesASM_CWrapper env count m).memAfter
      = env .ASM_DECAllBytesASM [count] m.mem := by
  unfold DECAllBytesASM_CWrapper
  rw [memAfter_callRoutine, count_arg count m hc]
  rfl

/-- C5: with the routines taken as arbitrary transformers of memory, the memory
after each wrapper returns is exactly the memory the routine itself produces on
the same arguments from the same initial memory (and the wrapper does not return
exactly when the routine does not); so a routine that leaves memory unchanged
makes the wrapper leave it unchanged; and the result does not depend on the
registers or the earlier transfers another wrapper left behind, only on the
memory. -/
theorem wrappers_memory_effect_is_routine_effect {Mem : Type} (env : Routines Mem)
    (buffer count : Nat) (m : Machine Mem) (hb : buffer < WORD) (hc : count < WORD) :
    ((MOVAllBytesASM_CWrapper env buffer count m).memAfter
        = env .ASM_MOVAllBytesASM [buffer, count] m.mem ∧
      (NOPAllBytesASM_CWrapper env count m).memAfter
        = env .ASM_NOPAllBytesASM [count] m.mem ∧
      (CMPAllBytesASM_CWrapper env count m).memAfter
        = env .ASM_CMPAllBytesASM [count] m.mem ∧
      (DECAllBytesASM_CWrapper env count m).memAfter
        = env .ASM_DECAllBytesASM [count] m.mem) ∧
    ((env .ASM_MOVAllBytesASM [buffer, count] m.mem = some m.mem →
        (MOVAllBytesASM_CWrapper env buffer count m).memAfter = some m.mem) ∧
      (env .ASM_NOPAllBytesASM [count] m.mem = some m.mem →
        (NOPAllBytesASM_CWrapper env count m).memAfter = some m.mem) ∧
      (env .ASM_CMPAllBytesASM [count] m.mem = some m.mem →
        (CMPAllBytesASM_CWrapper env count m).memAfter = some m.mem) ∧
      (env .ASM_DECAllBytesASM [count] m.mem = some m.mem →
        (DECAllBytesASM_CWrapper env count m).memAfter = some m.mem)) ∧
    (∀ m2 : Machine Mem, m2.mem = m.mem →
      (MOVAllBytesASM_CWrapper env buffer count m2).memAfter
        = (MOVAllBytesASM_CWrapper env buffer count m).memAfter ∧
      (NOPAllBytesASM_CWrapper env count m2).memAfter
        = (NOPAllBytesASM_CWrapper env count m).memAfter ∧
      (CMPAllBytesASM_CWrapper env count m2).memAfter
        = (CMPAllBytesASM_CWrapper env count m).memAfter ∧
      (DECAllBytesASM_CWrapper env count m2).memAfter
        = (DECAllBytesASM_CWrapper env count m).memAfter) := by
  refine ⟨⟨memAfter_MOV env buffer count m hb hc, memAfter_NOP env count m hc,
      memAfter_CMP env count m hc, memAfter_DEC env count m hc⟩, ⟨?_, ?_, ?_, ?_⟩, ?_⟩
  · intro h; rw [memAfter_MOV env buffer count m hb hc, h]
  · intro h; rw [memAfter_NOP env count m hc, h]
  · intro h; rw [memAfter_CMP env count m hc, h]
  · intro h; rw [memAfter_DEC env count m hc, h]
  · intro m2 h
    rw [memAfter_MOV env buffer count m hb hc, memAfter_MOV env buffer count m2 hb hc,
      memAfter_NOP env count m hc, memAfter_NOP env count m2 hc,
      memAfter_CMP env count m hc, memAfter_CMP env count m2 hc,
      memAfter_DEC env count m hc, memAfter_DEC env count m2 hc, h]
    exact ⟨rfl, rfl, rfl, rfl⟩

theorem wrappers_memory_effect_is_routine_effect_witness :
    (4096 < WORD ∧ 5 < WORD) ∧
    (MOVAllBytesASM_CWrapper sampleRoutines 4096 5 bootMachine).memAfter = some [4096, 5] ∧
    (NOPAllBytesASM_CWrapper idleRoutines 5 bootMachine).memAfter = some [] ∧
    (MOVAllBytesASM_CWrapper idleRoutines 4096 5 bootMachine).memAfter = some [] :=
  ⟨by decide,
    (wrappers_memory_effect_is_routine_effect sampleRoutines 4096 5 bootMachine
      (by decide) (by decide)).1.1,
    (wrappers_memory_effect_is_routine_effect idleRoutines 4096 5 bootMachine
      (by decide) (by decide)).2.1.2.1 rfl,
    (wrappers_memory_effect_is_routine_effect idleRoutines 4096 5 bootMachine
      (by decide) (by decide)).2.1.1 rfl⟩

/-- C6: no wrapper has a failure path or a result of its own: for every input,
a null buffer and a zero count included, whenever the routine hands control
back the wrapper returns normally, and what it returns is the unit value. -/
theorem wrappers_return_unit_when_routine_returns {Mem : Type} (env : Routines Mem)
    (buffer count : Nat) (m : Machine Mem) (hb : buffer < WORD) (hc : count < WORD) :
    ((env .ASM_MOVAllBytesASM [buffer, count] m.mem).isSome →
      ∃ m1, MOVAllBytesASM_CWrapper env buffer count m = .returned () m1) ∧
    ((env .ASM_NOPAllBytesASM [count] m.mem).isSome →
      ∃ m1, NOPAllBytesASM_CWrapper env count m = .returned () m1) ∧
    ((env .ASM_CMPAllBytesASM [count] m.mem).isSome →
      ∃ m1, CMPAllBytesASM_CWrapper env count m = .returned () m1) ∧
    ((env .ASM_DECAllBytesASM [count] m.mem).isSome →
      ∃ m1, DECAllBytesASM_CWrapper env count m = .returned () m1) := by
  refine ⟨?_, ?_, ?_, ?_⟩
  · intro h
    unfold MOVAllBytesASM_CWrapper
    dsimp only
    rw [mov_args buffer count m hb hc]
    exact returned_callRoutine env _ _ _ h
  · intro h
    unfold NOPAllBytesASM_CWrapper
    dsimp only
    rw [count_arg count m hc]
    exact returned_callRoutine env _ _ _ h
  · intro h
    unfold CMPAllBytesASM_CWrapper
    dsimp only
    rw [count_arg count m hc]
    exact returned_callRoutine env _ _ _ h
  · intro h
    unfold DECAllBytesASM_CWrapper
    dsimp only
    rw [count_arg count m hc]
    exact returned_callRoutine env _ _ _ h

theorem wrappers_return_unit_when_routine_returns_witness :
    (0 < WORD ∧ (sampleRoutines .ASM_MOVAllBytesASM [0, 0] bootMachine.mem).isSome ∧
      (sampleRoutines .ASM_NOPAllBytesASM [0] bootMachine.mem).isSome ∧
      (sampleRoutines .ASM_CMPAllBytesASM [0] bootMachine.mem).isSome ∧
      (sampleRoutines .ASM_DECAllBytesASM [0] bootMachine.mem).isSome) ∧
    (∃ m1, MOVAllBytesASM_CWrapper sampleRoutines 0 0 bootMachine = .returned () m1) ∧
    (∃ m1, NOPAllBytesASM_CWrapper sampleRoutines 0 bootMachine = .returned () m1) ∧
    (∃ m1, CMPAllBytesASM_CWrapper sampleRoutines 0 bootMachine = .returned () m1) ∧
    (∃ m1, DECAllBytesASM_CWrapper sampleRoutines 0 bootMachine = .returned () m1) :=
  ⟨⟨by decide, rfl, rfl, rfl, rfl⟩,
    (wrappers_return_unit_when_routine_returns sampleRoutines 0 0 bootMachine
      (by decide) (by decide)).1 rfl,
    (wrappers_return_unit_when_routine_returns sampleRoutines 0 0 bootMachine
      (by decide) (by decide)).2.1 rfl,
    (wrappers_return_unit_when_routine_returns sampleRoutines 0 0 bootMachine
      (by decide) (by decide)).2.2.1 rfl,
    (wrappers_return_unit_when_routine_returns sampleRoutines 0 0 bootMachine
      (by decide) (by decide)).2.2.2 rfl⟩

end AsmWrappers
